import Mathlib

/-!
Shallow embedding of the retro-video-store service (Flask + SQLAlchemy,
`app/routes.py` together with the entity models) and proofs about its rental
lifecycle, inventory bookkeeping and query/pagination layer.

The database session is modelled as an explicit `State` record holding the three
tables as lists of rows.  Every route handler becomes a pure function from the
state (plus the parsed request data) to either a response value or an error.
Python/HTTP error channels are modelled by `ApiErr`: `notFound` and `badRequest`
are the handled `make_response(detail_error(...), 404/400)` responses, while
`exn` models an uncaught Python/DB exception, which Flask surfaces as an
HTTP 500 server error, never as a handled `errors` body.
-/

/-- Uncaught Python or database exceptions (surfaced by Flask as HTTP 500). -/
inductive PyExn where
  | attributeError  -- e.g. `None.available_inventory`
  | typeError       -- e.g. `int(None)`
  | valueError      -- e.g. `int("abc")`
  | dbError         -- error raised by the database backend (e.g. unknown column)
  deriving Repr, DecidableEq

/-- Outcome channel of a request handler. -/
inductive ApiErr where
  | notFound (msg : String)    -- `make_response(detail_error(msg), 404)`
  | badRequest (msg : String)  -- `make_response(detail_error(msg), 400)`
  | exn (e : PyExn)            -- uncaught exception, HTTP 500
  deriving Repr, DecidableEq

/-- Replace the first element satisfying `p` by its image under `f`; models an
UPDATE of the unique row matched by a primary-key lookup. -/
def updateFirst (p : α → Bool) (f : α → α) : List α → List α
  | [] => []
  | x :: xs => if p x then f x :: xs else x :: updateFirst p f xs

/-- Truthiness of an optional request argument string in Python:
`None` and `""` are falsy, any other string is truthy. -/
def pyTruthyStr : Option String → Bool
  | none => false
  | some s => !(s == "")

/-- A column value, as compared by the database's ORDER BY. -/
inductive Val where
  | int (i : Int)
  | str (s : String)
  | optInt (o : Option Int)
  deriving Repr, DecidableEq

/-- ORDER BY comparison on column values.  A single column always holds a single
type, so the heterogeneous cases are never exercised; nullable columns sort
with NULLs first. -/
def Val.leB : Val → Val → Bool
  | .int a, .int b => decide (a ≤ b)
  | .str a, .str b => decide (a ≤ b)
  | .optInt none, .optInt _ => true
  | .optInt (some _), .optInt none => false
  | .optInt (some a), .optInt (some b) => decide (a ≤ b)
  | _, _ => true

/-- Insert into a sorted list (stable). -/
def insertByLe (le : α → α → Bool) (x : α) : List α → List α
  | [] => [x]
  | y :: ys => if le x y then x :: y :: ys else y :: insertByLe le x ys

/-- Stable insertion sort; models the database's ORDER BY. -/
def sortByLe (le : α → α → Bool) : List α → List α
  | [] => []
  | x :: xs => insertByLe le x (sortByLe le xs)

/-! ## Entity models

`app/models/video.py` and `app/models/rental.py` declare the Video and Rental
tables.  The Customer model imported by `app/routes.py` (`app.models.customer`)
is not present in the source tree; only an earlier revision
(`models/customer.py`) is.  Timestamps are modelled as integers (seconds). -/

/-- Customer row.  Modelled from the spec: the `app/models/customer.py` file
that `app/routes.py` imports is missing from the source tree; per the spec the
customer has `id, name, postal_code, phone, registered_at` and a maintained
`videos_checked_out_count` (defaulting to 0 on creation), which
`app/routes.py` (check-out/check-in) and `app/models/rental.py`
(`get_rental_info`) read and write as a real column. -/
structure Customer where
  customer_id : Nat
  name : String
  postal_code : String
  phone : String
  registered_at : Int
  videos_checked_out_count : Int
  deriving Repr, DecidableEq

/-- Video row, from `app/models/video.py`: `available_inventory` has a column
default equal to the row's `total_inventory` (`default_available_inventory`). -/
structure Video where
  video_id : Nat
  title : String
  release_date : Int
  genre : List String
  total_inventory : Int
  available_inventory : Int
  deriving Repr, DecidableEq

/-- Rental row.  Modelled from the spec for the column set: the Rental model in
`src/app/models/rental.py` predates `app/routes.py` (it lacks the
`returned_on_date` column that the routes read, write and filter on); per the
spec a rental carries `due_date` and a nullable `returned_on_date` and is
identified by `(customer_id, video_id)` for the check-in lookup.  The surrogate
`rental_id` is never read or written by any route and is omitted. -/
structure Rental where
  customer_id : Nat
  video_id : Nat
  due_date : Int
  returned_on_date : Option Int
  deriving Repr, DecidableEq

/-- The database session: the three tables. -/
structure State where
  customers : List Customer
  videos : List Video
  rentals : List Rental
  deriving Repr, DecidableEq

/-- `datetime.timedelta(days=7)` in seconds. -/
def sevenDays : Int := 7 * 24 * 60 * 60

/-- `Customer.query.get(customer_id)`: primary-key lookup. -/
def findCustomer (s : State) (customer_id : Nat) : Option Customer :=
  s.customers.find? (fun c => c.customer_id == customer_id)

/-- `Video.query.get(video_id)`: primary-key lookup. -/
def findVideo (s : State) (video_id : Nat) : Option Video :=
  s.videos.find? (fun v => v.video_id == video_id)

/-- `Rental.query.get({"video_id": ..., "customer_id": ...})`: lookup of the
rental row identified by the (customer, video) pair. -/
def findRental (rs : List Rental) (customer_id video_id : Nat) : Option Rental :=
  rs.find? (fun r => r.customer_id == customer_id && r.video_id == video_id)

/-- Serialized customer object.  Modelled from the spec:
`{id, name, registered_at, postal_code, phone, videos_checked_out_count}`
(the serializing `get_customer_info` lives in the missing
`app/models/customer.py`). -/
structure CustomerInfo where
  id : Nat
  name : String
  registered_at : Int
  postal_code : String
  phone : String
  videos_checked_out_count : Int
  deriving Repr, DecidableEq

/-- Modelled from the spec: `Customer.get_customer_info` of the missing
`app/models/customer.py`; serializes the customer object
`{id, name, registered_at, postal_code, phone, videos_checked_out_count}`. -/
def Customer.get_customer_info (c : Customer) : CustomerInfo :=
  { id := c.customer_id
    name := c.name
    registered_at := c.registered_at
    postal_code := c.postal_code
    phone := c.phone
    videos_checked_out_count := c.videos_checked_out_count }

/-! ## Entity CRUD (the parts the claims need) -/

/-- Autoincrement primary key for a new customer row. -/
def nextCustomerId (s : State) : Nat :=
  (s.customers.map Customer.customer_id).foldr max 0 + 1

/-- Autoincrement primary key for a new video row. -/
def nextVideoId (s : State) : Nat :=
  (s.videos.map Video.video_id).foldr max 0 + 1

/-- `POST /customers` (`post_new_customer`) with a well-formed body:
inserts the new row; `videos_checked_out_count` starts at 0 and
`registered_at = datetime.datetime.now()`. -/
def post_new_customer (s : State) (name postal_code phone : String) (now : Int) :
    State :=
  { s with customers := s.customers ++
      [{ customer_id := nextCustomerId s
         name := name
         postal_code := postal_code
         phone := phone
         registered_at := now
         videos_checked_out_count := 0 }] }

/-- `POST /videos` (`post_new_video`) with a well-formed body: inserts the new
row; the `available_inventory` column default sets it to `total_inventory`
(`default_available_inventory` in `app/models/video.py`). -/
def post_new_video (s : State) (title : String) (release_date : Int)
    (genre : List String) (total_inventory : Int) : State :=
  { s with videos := s.videos ++
      [{ video_id := nextVideoId s
         title := title
         release_date := release_date
         genre := genre
         total_inventory := total_inventory
         available_inventory := total_inventory }] }

/-- `PUT /videos/<video_id>` (`update_video`) with a well-formed body:
404 when the video does not exist, otherwise `Video.from_json` overwrites
`title`, `release_date`, `total_inventory` and `genre`;
`available_inventory` is left untouched. -/
def update_video (s : State) (video_id : Nat) (title : String)
    (release_date : Int) (genre : List String) (total_inventory : Int) :
    Except ApiErr State :=
  match findVideo s video_id with
  | none => Except.error (ApiErr.notFound "Video does not exist")
  | some _ => Except.ok
      { s with videos :=
          (updateFirst (fun v => v.video_id == video_id)
            (fun v => { v with title := title, release_date := release_date,
                               total_inventory := total_inventory, genre := genre })
            s.videos) }

/-- `GET /customers/<customer_id>` (`get_single_customer`). -/
def get_single_customer (s : State) (customer_id : Nat) :
    Except ApiErr CustomerInfo :=
  match findCustomer s customer_id with
  | none => Except.error (ApiErr.notFound "Customer does not exist")
  | some c => Except.ok c.get_customer_info

/-! ## Rental lifecycle -/

/-- `POST /rentals/check-out` (`check_out_video_to_customer`), body already
parsed into the two ids.

Faithful to `app/routes.py:401-430`, including its bug: when
`Video.query.get` returns `None`, line 406 builds
`make_response(detail_error("Video does not exist"), 404)` **without a
`return`**, so execution falls through to line 410 and
`video.available_inventory` raises `AttributeError` on `None` (an uncaught
exception, HTTP 500) instead of answering 404.

On success the handler creates the rental with `due_date = now + 7 days`,
decrements the video's `available_inventory`, increments the customer's
`videos_checked_out_count`, and commits all of it with a single
`db.session.commit()` (one transaction). -/
def check_out (s : State) (customer_id video_id : Nat) (now : Int) :
    Except ApiErr State :=
  match findVideo s video_id with
  | none => Except.error (ApiErr.exn PyExn.attributeError)
  | some video =>
    if video.available_inventory == 0 then
      Except.error (ApiErr.badRequest "No available inventory for that title")
    else
      match findCustomer s customer_id with
      | none => Except.error (ApiErr.notFound "Customer does not exist")
      | some _customer =>
        Except.ok
          { customers :=
              (updateFirst (fun c => c.customer_id == customer_id)
                (fun c => { c with videos_checked_out_count :=
                                     c.videos_checked_out_count + 1 })
                s.customers)
            videos :=
              (updateFirst (fun v => v.video_id == video_id)
                (fun v => { v with available_inventory :=
                                     v.available_inventory - 1 })
                s.videos)
            rentals :=
              (s.rentals ++
                [{ customer_id := customer_id
                   video_id := video_id
                   due_date := now + sevenDays
                   returned_on_date := none }]) }

/-- `POST /rentals/check-in` (`check_in_rented_video`), body already parsed.

Faithful to `app/routes.py:433-467`: 404 when the customer or the video does
not exist; 400 "No matching record" when no rental row matches the pair; 400
"Rental has already been checked in" when the matched rental's
`returned_on_date` is already set (a set datetime is truthy).  On success the
handler increments the video's `available_inventory`, decrements the
customer's `videos_checked_out_count`, and sets the rental's
`returned_on_date = now` (the row is updated, not deleted), all committed by a
single `db.session.commit()`. -/
def check_in (s : State) (customer_id video_id : Nat) (now : Int) :
    Except ApiErr State :=
  match findCustomer s customer_id with
  | none => Except.error (ApiErr.notFound "Customer does not exist")
  | some _customer =>
    match findVideo s video_id with
    | none => Except.error (ApiErr.notFound "Video does not exist")
    | some _video =>
      match findRental s.rentals customer_id video_id with
      | none => Except.error (ApiErr.badRequest "No matching record")
      | some rental =>
        if rental.returned_on_date.isSome then
          Except.error (ApiErr.badRequest "Rental has already been checked in")
        else
          Except.ok
            { customers :=
                (updateFirst (fun c => c.customer_id == customer_id)
                  (fun c => { c with videos_checked_out_count :=
                                       c.videos_checked_out_count - 1 })
                  s.customers)
              videos :=
                (updateFirst (fun v => v.video_id == video_id)
                  (fun v => { v with available_inventory :=
                                       v.available_inventory + 1 })
                  s.videos)
              rentals :=
                (updateFirst
                  (fun r => r.customer_id == customer_id && r.video_id == video_id)
                  (fun r => { r with returned_on_date := some now })
                  s.rentals) }

/-! ## Query/pagination engine

`query_with_parameters` and `get_rentals_within_parameters`
(`app/routes.py:520-548`) share the same logic: optional ORDER BY on a
free-text column name, optional `LIMIT results_per_page`, and — only when the
`p` argument is truthy — `OFFSET (int(p) - 1) * int(results_per_page)`.
The `n` string is handed to `.limit()` unconverted (the database coerces it,
raising an error on a non-numeric value), while `int(p)` and
`int(results_per_page)` are explicit Python conversions: `int(None)` raises
`TypeError` and `int` of a non-numeric string raises `ValueError`.
The database applies OFFSET before LIMIT regardless of the call order. -/

/-- Per-table column metadata: column names and the ORDER-BY projection. -/
structure EntityCols (α : Type) where
  cols : List String
  getVal : α → String → Val

/-- Decimal digit value of a character (kernel-computable). -/
def digitVal? (ch : Char) : Option Nat :=
  if ch == '0' then some 0
  else if ch == '1' then some 1
  else if ch == '2' then some 2
  else if ch == '3' then some 3
  else if ch == '4' then some 4
  else if ch == '5' then some 5
  else if ch == '6' then some 6
  else if ch == '7' then some 7
  else if ch == '8' then some 8
  else if ch == '9' then some 9
  else none

def pyParseNatAux : List Char → Nat → Option Nat
  | [], acc => some acc
  | ch :: cs, acc =>
    match digitVal? ch with
    | some d => pyParseNatAux cs (acc * 10 + d)
    | none => none

/-- Nonempty run of decimal digits. -/
def pyParseNat : List Char → Option Nat
  | [] => none
  | cs => pyParseNatAux cs 0

/-- Python `int(str)` (and the database's numeric coercion of a bind
parameter) on the strings the routes receive: an optional minus sign followed
by decimal digits; anything else fails. -/
def pyParseInt (s : String) : Option Int :=
  match s.data with
  | '-' :: rest => (pyParseNat rest).map (fun n => -(n : Int))
  | cs => (pyParseNat cs).map (fun n => ((n : Nat) : Int))

/-- The `query.limit(results_per_page)` clause: skipped when `n` is falsy;
the raw string is coerced by the database (non-numeric values raise a
database error). -/
def pyLimit (results_per_page : Option String) : Except ApiErr (Option Int) :=
  if pyTruthyStr results_per_page then
    match pyParseInt (results_per_page.getD "") with
    | some k => Except.ok (some k)
    | none => Except.error (ApiErr.exn PyExn.dbError)
  else Except.ok none

/-- The `query.offset((int(page) - 1) * int(results_per_page))` clause:
skipped when `p` is falsy; `int(page)` raises `ValueError` on a non-numeric
string, and `int(results_per_page)` raises `TypeError` when `n` was not
supplied (`int(None)`) or `ValueError` when it is non-numeric. -/
def pyOffset (page results_per_page : Option String) :
    Except ApiErr (Option Int) :=
  if pyTruthyStr page then
    match pyParseInt (page.getD "") with
    | none => Except.error (ApiErr.exn PyExn.valueError)
    | some pk =>
      match results_per_page with
      | none => Except.error (ApiErr.exn PyExn.typeError)
      | some nstr =>
        match pyParseInt nstr with
        | none => Except.error (ApiErr.exn PyExn.valueError)
        | some nk => Except.ok (some ((pk - 1) * nk))
  else Except.ok none

/-- Apply OFFSET then LIMIT (negative values are clamped to 0, an edge the
routes never exercise). -/
def applySlice (rows : List α) (off lim : Option Int) : List α :=
  let rows := match off with
    | some k => rows.drop k.toNat
    | none => rows
  match lim with
  | some k => rows.take k.toNat
  | none => rows

/-- The LIMIT/OFFSET part shared by both query helpers. -/
def applyPagination (rows : List α) (page results_per_page : Option String) :
    Except ApiErr (List α) :=
  match pyLimit results_per_page with
  | Except.error e => Except.error e
  | Except.ok lim =>
    match pyOffset page results_per_page with
    | Except.error e => Except.error e
    | Except.ok off => Except.ok (applySlice rows off lim)

/-- The ORDER BY part shared by both query helpers: skipped when `order_by` is
falsy; a truthy name that is not a column of the entity makes the database
raise an error (there is no allowlist and no handler in the routes). -/
def applyOrderBy (E : EntityCols α) (rows : List α) (order_by : Option String) :
    Except ApiErr (List α) :=
  if pyTruthyStr order_by then
    let f := order_by.getD ""
    if E.cols.contains f then
      Except.ok (sortByLe (fun a b => Val.leB (E.getVal a f) (E.getVal b f)) rows)
    else Except.error (ApiErr.exn PyExn.dbError)
  else Except.ok rows

/-- `query_with_parameters(model_name, order_by, page, results_per_page)`
(`app/routes.py:520-533`). -/
def query_with_parameters (E : EntityCols α) (rows : List α)
    (order_by page results_per_page : Option String) :
    Except ApiErr (List α) :=
  match applyOrderBy E rows order_by with
  | Except.error e => Except.error e
  | Except.ok sorted => applyPagination sorted page results_per_page

/-- `get_rentals_within_parameters(rentals_list, order_by, page,
results_per_page)` (`app/routes.py:535-548`): the same logic applied to an
already-filtered rental query. -/
def get_rentals_within_parameters (E : EntityCols α) (rentals_list : List α)
    (order_by page results_per_page : Option String) :
    Except ApiErr (List α) :=
  match applyOrderBy E rentals_list order_by with
  | Except.error e => Except.error e
  | Except.ok sorted => applyPagination sorted page results_per_page

/-- Columns of the customer table (live model, see `Customer`). -/
def customerCols : EntityCols Customer where
  cols := ["customer_id", "name", "postal_code", "phone", "registered_at",
           "videos_checked_out_count"]
  getVal c f :=
    if f == "customer_id" then Val.int c.customer_id
    else if f == "name" then Val.str c.name
    else if f == "postal_code" then Val.str c.postal_code
    else if f == "phone" then Val.str c.phone
    else if f == "registered_at" then Val.int c.registered_at
    else Val.int c.videos_checked_out_count

/-- Columns of the video table (`app/models/video.py`); the `genre` array
column is flattened to a string for ordering (never exercised by a claim). -/
def videoCols : EntityCols Video where
  cols := ["video_id", "title", "release_date", "genre", "total_inventory",
           "available_inventory"]
  getVal v f :=
    if f == "video_id" then Val.int v.video_id
    else if f == "title" then Val.str v.title
    else if f == "release_date" then Val.int v.release_date
    else if f == "genre" then Val.str (String.intercalate "," v.genre)
    else if f == "total_inventory" then Val.int v.total_inventory
    else Val.int v.available_inventory

/-- Columns of the rental table used by the routes (the surrogate `rental_id`
is never populated or sorted on by any route and is omitted, see `Rental`). -/
def rentalCols : EntityCols Rental where
  cols := ["customer_id", "video_id", "due_date", "returned_on_date"]
  getVal r f :=
    if f == "customer_id" then Val.int r.customer_id
    else if f == "video_id" then Val.int r.video_id
    else if f == "due_date" then Val.int r.due_date
    else Val.optInt r.returned_on_date

/-! ## List routes -/

/-- `GET /customers` (`get_all_customers`): the sort defaults to
`"customer_id"` when the `sort` argument is falsy, then the shared query
helper runs and each row is serialized with `get_customer_info`. -/
def get_all_customers (s : State) (sort n p : Option String) :
    Except ApiErr (List CustomerInfo) :=
  let sort_query := if pyTruthyStr sort then sort else some "customer_id"
  match query_with_parameters customerCols s.customers sort_query p n with
  | Except.error e => Except.error e
  | Except.ok customers => Except.ok (customers.map Customer.get_customer_info)

/-- Row shape of `GET /customers/<customer_id>/rentals`. -/
structure CustomerRentalView where
  release_date : Int
  title : String
  due_date : Int
  deriving Repr, DecidableEq

/-- Row shape of `GET /videos/<video_id>/rentals`. -/
structure VideoRentalView where
  due_date : Int
  name : String
  phone : String
  postal_code : String
  deriving Repr, DecidableEq

/-- The rental join of `get_rentals_by_customer` (`app/routes.py:131-134`):
rentals inner-joined to their customer and video rows, filtered to the given
customer.  There is no filter on `returned_on_date`: closed rentals are
included. -/
def customerRentalRows (s : State) (customer_id : Nat) : List Rental :=
  s.rentals.filter (fun r =>
    (s.customers.find? (fun c => c.customer_id == r.customer_id)).isSome
    && (s.videos.find? (fun v => v.video_id == r.video_id)).isSome
    && r.customer_id == customer_id)

/-- The rental join of `get_rentals_by_video` (`app/routes.py:306-310`):
rentals inner-joined to their video and customer rows, filtered to the given
video **and to `returned_on_date == None`**: only open rentals are included. -/
def videoRentalRows (s : State) (video_id : Nat) : List Rental :=
  s.rentals.filter (fun r =>
    (s.videos.find? (fun v => v.video_id == r.video_id)).isSome
    && (s.customers.find? (fun c => c.customer_id == r.customer_id)).isSome
    && r.video_id == video_id
    && r.returned_on_date.isNone)

/-- Serialization step of `get_rentals_by_customer`: `Video.query.get` on the
rental's video (the inner join guarantees the row exists; the fallback is
unreachable). -/
def serializeCustomerRental (s : State) (r : Rental) : CustomerRentalView :=
  match findVideo s r.video_id with
  | some video => { release_date := video.release_date, title := video.title,
                    due_date := r.due_date }
  | none => { release_date := 0, title := "", due_date := r.due_date }

/-- Serialization step of `get_rentals_by_video`: `Customer.query.get` on the
rental's customer (the inner join guarantees the row exists; the fallback is
unreachable). -/
def serializeVideoRental (s : State) (r : Rental) : VideoRentalView :=
  match findCustomer s r.customer_id with
  | some c => { due_date := r.due_date, name := c.name, phone := c.phone,
                postal_code := c.postal_code }
  | none => { due_date := r.due_date, name := "", phone := "", postal_code := "" }

/-- `GET /customers/<customer_id>/rentals` (`get_rentals_by_customer`). -/
def get_rentals_by_customer (s : State) (customer_id : Nat)
    (sort n p : Option String) : Except ApiErr (List CustomerRentalView) :=
  match findCustomer s customer_id with
  | none => Except.error (ApiErr.notFound "Customer does not exist")
  | some _ =>
    match get_rentals_within_parameters rentalCols
        (customerRentalRows s customer_id) sort p n with
    | Except.error e => Except.error e
    | Except.ok rows => Except.ok (rows.map (serializeCustomerRental s))

/-- `GET /videos/<video_id>/rentals` (`get_rentals_by_video`). -/
def get_rentals_by_video (s : State) (video_id : Nat)
    (sort n p : Option String) : Except ApiErr (List VideoRentalView) :=
  match findVideo s video_id with
  | none => Except.error (ApiErr.notFound "Video does not exist")
  | some _ =>
    match get_rentals_within_parameters rentalCols
        (videoRentalRows s video_id) sort p n with
    | Except.error e => Except.error e
    | Except.ok rows => Except.ok (rows.map (serializeVideoRental s))

/-! ## Lemmas about `updateFirst` -/

theorem updateFirst_length (p : α → Bool) (f : α → α) (l : List α) :
    (updateFirst p f l).length = l.length := by
  induction l with
  | nil => rfl
  | cons x xs ih =>
    by_cases hx : p x <;> simp [updateFirst, hx, ih]

theorem updateFirst_map_eq (p : α → Bool) (f : α → α) (g : α → β)
    (hf : ∀ x, g (f x) = g x) (l : List α) :
    (updateFirst p f l).map g = l.map g := by
  induction l with
  | nil => rfl
  | cons x xs ih =>
    by_cases hx : p x <;> simp [updateFirst, hx, ih, hf]

theorem find?_updateFirst_self (p : α → Bool) (f : α → α)
    (hpf : ∀ x, p (f x) = p x) {l : List α} {a : α}
    (h : l.find? p = some a) : (updateFirst p f l).find? p = some (f a) := by
  induction l with
  | nil => simp at h
  | cons x xs ih =>
    by_cases hx : p x
    · rw [List.find?_cons_of_pos _ hx] at h
      cases h
      simp only [updateFirst, if_pos hx]
      exact List.find?_cons_of_pos _ (by rw [hpf]; exact hx)
    · rw [List.find?_cons_of_neg _ hx] at h
      simp only [updateFirst, if_neg hx]
      rw [List.find?_cons_of_neg _ hx]
      exact ih h

theorem mem_updateFirst_of_find? (p : α → Bool) (f : α → α) {l : List α} {a : α}
    (h : l.find? p = some a) : f a ∈ updateFirst p f l := by
  induction l with
  | nil => simp at h
  | cons x xs ih =>
    by_cases hx : p x
    · rw [List.find?_cons_of_pos _ hx] at h
      cases h
      simp [updateFirst, hx]
    · rw [List.find?_cons_of_neg _ hx] at h
      simp only [updateFirst, if_neg hx]
      exact List.mem_cons_of_mem _ (ih h)

/-- With pairwise-distinct keys `g`, a member of `updateFirst p f l` is either
the updated image of the found element or an untouched element with a
different key. -/
theorem mem_updateFirst_nodup {g : α → β} {p : α → Bool} {f : α → α}
    {l : List α} {a v : α}
    (hnd : (l.map g).Nodup) (hp : ∀ x, p x = true ↔ g x = g a)
    (h : l.find? p = some a) (hv : v ∈ updateFirst p f l) :
    v = f a ∨ (v ∈ l ∧ g v ≠ g a) := by
  induction l with
  | nil => simp at h
  | cons x xs ih =>
    simp only [List.map_cons, List.nodup_cons] at hnd
    by_cases hx : p x
    · rw [List.find?_cons_of_pos _ hx] at h
      cases h
      simp only [updateFirst, if_pos hx, List.mem_cons] at hv
      rcases hv with rfl | hv
      · exact Or.inl rfl
      · refine Or.inr ⟨List.mem_cons_of_mem _ hv, fun hg => hnd.1 ?_⟩
        exact hg ▸ List.mem_map_of_mem g hv
    · rw [List.find?_cons_of_neg _ hx] at h
      simp only [updateFirst, if_neg hx, List.mem_cons] at hv
      rcases hv with rfl | hv
      · refine Or.inr ⟨List.mem_cons_self _ _, fun hg => hx ((hp v).mpr hg)⟩
      · rcases ih hnd.2 h hv with h1 | ⟨h2, h3⟩
        · exact Or.inl h1
        · exact Or.inr ⟨List.mem_cons_of_mem _ h2, h3⟩

theorem countP_updateFirst_of_pred (p : α → Bool) (f : α → α) (q : α → Bool)
    (hq : ∀ x, p x = true → q (f x) = q x) (l : List α) :
    (updateFirst p f l).countP q = l.countP q := by
  induction l with
  | nil => rfl
  | cons x xs ih =>
    by_cases hx : p x
    · simp [updateFirst, hx, List.countP_cons, hq x hx]
    · simp [updateFirst, hx, List.countP_cons, ih]

/-- Updating the found element from a `q`-satisfying to a non-`q`-satisfying
value decreases the `q`-count by exactly one. -/
theorem countP_updateFirst_close (p : α → Bool) (f : α → α) (q : α → Bool)
    {l : List α} {a : α} (h : l.find? p = some a)
    (hqa : q a = true) (hqfa : q (f a) = false) :
    (updateFirst p f l).countP q + 1 = l.countP q := by
  induction l with
  | nil => simp at h
  | cons x xs ih =>
    by_cases hx : p x
    · rw [List.find?_cons_of_pos _ hx] at h
      cases h
      simp [updateFirst, hx, List.countP_cons, hqa, hqfa]
    · rw [List.find?_cons_of_neg _ hx] at h
      simp only [updateFirst, if_neg hx, List.countP_cons]
      have := ih h
      omega

/-! ## Inversion of the lifecycle operations -/

/-- A successful check-out happened exactly when the video exists with nonzero
inventory and the customer exists; the post-state applies the three effects. -/
theorem check_out_ok_elim {s s' : State} {cid vid : Nat} {now : Int}
    (h : check_out s cid vid now = Except.ok s') :
    ∃ video c, findVideo s vid = some video ∧
      (video.available_inventory == 0) = false ∧
      findCustomer s cid = some c ∧
      s' = { customers :=
               (updateFirst (fun c => c.customer_id == cid)
                 (fun c => { c with videos_checked_out_count :=
                                      c.videos_checked_out_count + 1 })
                 s.customers)
             videos :=
               (updateFirst (fun v => v.video_id == vid)
                 (fun v => { v with available_inventory :=
                                      v.available_inventory - 1 })
                 s.videos)
             rentals :=
               (s.rentals ++
                 [{ customer_id := cid, video_id := vid,
                    due_date := now + sevenDays, returned_on_date := none }]) } := by
  unfold check_out at h
  cases hv : findVideo s vid with
  | none => rw [hv] at h; cases h
  | some video =>
    rw [hv] at h
    by_cases h0 : (video.available_inventory == 0)
    · simp only [if_pos h0] at h
      cases h
    · simp only [if_neg h0] at h
      cases hc : findCustomer s cid with
      | none => rw [hc] at h; cases h
      | some c =>
        rw [hc] at h
        cases h
        exact ⟨video, c, rfl, by simpa using h0, rfl, rfl⟩

/-- A successful check-in happened exactly when the customer and video exist
and the pair's rental row exists and is open; the post-state applies the three
effects (the rental row is updated in place, not deleted). -/
theorem check_in_ok_elim {s s' : State} {cid vid : Nat} {now : Int}
    (h : check_in s cid vid now = Except.ok s') :
    ∃ c video r, findCustomer s cid = some c ∧ findVideo s vid = some video ∧
      findRental s.rentals cid vid = some r ∧ r.returned_on_date = none ∧
      s' = { customers :=
               (updateFirst (fun c => c.customer_id == cid)
                 (fun c => { c with videos_checked_out_count :=
                                      c.videos_checked_out_count - 1 })
                 s.customers)
             videos :=
               (updateFirst (fun v => v.video_id == vid)
                 (fun v => { v with available_inventory :=
                                      v.available_inventory + 1 })
                 s.videos)
             rentals :=
               (updateFirst
                 (fun r => r.customer_id == cid && r.video_id == vid)
                 (fun r => { r with returned_on_date := some now })
                 s.rentals) } := by
  unfold check_in at h
  cases hc : findCustomer s cid with
  | none => rw [hc] at h; cases h
  | some c =>
    rw [hc] at h
    cases hv : findVideo s vid with
    | none => rw [hv] at h; cases h
    | some video =>
      rw [hv] at h
      cases hr : findRental s.rentals cid vid with
      | none => rw [hr] at h; cases h
      | some r =>
        rw [hr] at h
        by_cases hro : r.returned_on_date.isSome
        · simp only [if_pos hro] at h
          cases h
        · simp only [if_neg hro] at h
          cases h
          exact ⟨c, video, r, rfl, rfl, rfl,
            Option.not_isSome_iff_eq_none.mp hro, rfl⟩

/-! ## The inventory invariant -/

/-- Number of open rentals of a given video. -/
def openCount (rs : List Rental) (vid : Nat) : Nat :=
  rs.countP (fun r => r.video_id == vid && r.returned_on_date.isNone)

/-- Well-formedness of the store: video primary keys are distinct, and each
video's `available_inventory` is nonnegative and accounts exactly for its open
rentals.  A freshly created video (`available_inventory` defaulting to
`total_inventory`, no rentals yet) satisfies this. -/
def WF (s : State) : Prop :=
  (s.videos.map Video.video_id).Nodup ∧
  ∀ v ∈ s.videos, 0 ≤ v.available_inventory ∧
    v.available_inventory + (openCount s.rentals v.video_id : Int) =
      v.total_inventory

/-- The inventory bounds of the spec, as a proposition about a state. -/
def VideoInvariant (s : State) : Prop :=
  ∀ v ∈ s.videos, 0 ≤ v.available_inventory ∧
    v.available_inventory ≤ v.total_inventory

theorem WF.videoInvariant {s : State} (h : WF s) : VideoInvariant s := by
  intro v hv
  obtain ⟨h0, hsum⟩ := h.2 v hv
  constructor
  · exact h0
  · have : (0 : Int) ≤ (openCount s.rentals v.video_id : Int) := Int.ofNat_nonneg _
    omega

/-- A successful check-out preserves well-formedness. -/
theorem WF_check_out {s s' : State} {cid vid : Nat} {now : Int}
    (hwf : WF s) (h : check_out s cid vid now = Except.ok s') : WF s' := by
  obtain ⟨video, c, hv, h0, hc, rfl⟩ := check_out_ok_elim h
  have hvid : video.video_id = vid := by
    have := List.find?_some hv
    simpa using this
  constructor
  · have hmap := updateFirst_map_eq (fun v => v.video_id == vid)
      (fun v => { v with available_inventory := v.available_inventory - 1 })
      Video.video_id (fun x => rfl) s.videos
    show (List.map Video.video_id _).Nodup
    rw [hmap]
    exact hwf.1
  · intro v' hv'
    have hp : ∀ x : Video, (x.video_id == vid) = true ↔
        x.video_id = video.video_id := by
      intro x
      simp [hvid]
    rcases mem_updateFirst_nodup hwf.1 hp hv hv' with rfl | ⟨hmem, hne⟩
    · -- the decremented video itself
      obtain ⟨ha, hsum⟩ := hwf.2 video (List.mem_of_find?_eq_some hv)
      have hnz : video.available_inventory ≠ 0 := by simpa using h0
      have hcount : openCount
          (s.rentals ++ [{ customer_id := cid, video_id := vid,
                           due_date := now + sevenDays,
                           returned_on_date := none }]) video.video_id =
          openCount s.rentals video.video_id + 1 := by
        simp [openCount, List.countP_append, hvid]
      simp only [hcount]
      push_cast
      constructor <;> omega
    · -- an untouched video with a different id
      obtain ⟨ha, hsum⟩ := hwf.2 v' hmem
      have hne' : (vid == v'.video_id) = false := by
        simp [← hvid]
        exact fun hh => hne hh.symm
      have hcount : openCount
          (s.rentals ++ [{ customer_id := cid, video_id := vid,
                           due_date := now + sevenDays,
                           returned_on_date := none }]) v'.video_id =
          openCount s.rentals v'.video_id := by
        simp [openCount, List.countP_append, hne']
      simp only [hcount]
      exact ⟨ha, hsum⟩

/-- A successful check-in preserves well-formedness. -/
theorem WF_check_in {s s' : State} {cid vid : Nat} {now : Int}
    (hwf : WF s) (h : check_in s cid vid now = Except.ok s') : WF s' := by
  obtain ⟨c, video, r, hc, hv, hr, hro, rfl⟩ := check_in_ok_elim h
  have hvid : video.video_id = vid := by
    have := List.find?_some hv
    simpa using this
  have hrpair := List.find?_some hr
  have hrvid : r.video_id = vid := by
    simp only [Bool.and_eq_true, beq_iff_eq] at hrpair
    exact hrpair.2
  constructor
  · have hmap := updateFirst_map_eq (fun v => v.video_id == vid)
      (fun v => { v with available_inventory := v.available_inventory + 1 })
      Video.video_id (fun x => rfl) s.videos
    show (List.map Video.video_id _).Nodup
    rw [hmap]
    exact hwf.1
  · intro v' hv'
    have hp : ∀ x : Video, (x.video_id == vid) = true ↔
        x.video_id = video.video_id := by
      intro x
      simp [hvid]
    rcases mem_updateFirst_nodup hwf.1 hp hv hv' with rfl | ⟨hmem, hne⟩
    · -- the incremented video itself
      obtain ⟨ha, hsum⟩ := hwf.2 video (List.mem_of_find?_eq_some hv)
      have hqr : (fun x : Rental =>
          x.video_id == video.video_id && x.returned_on_date.isNone) r = true := by
        simp [hrvid, hvid, hro]
      have hqr' : (fun x : Rental =>
          x.video_id == video.video_id && x.returned_on_date.isNone)
          { r with returned_on_date := some now } = false := by
        simp
      have hcount := countP_updateFirst_close
        (fun x : Rental => x.customer_id == cid && x.video_id == vid)
        (fun x => { x with returned_on_date := some now })
        (fun x : Rental => x.video_id == video.video_id &&
          x.returned_on_date.isNone) hr hqr hqr'
      unfold openCount at hsum
      show 0 ≤ video.available_inventory + 1 ∧
        video.available_inventory + 1 +
          (((updateFirst
              (fun r => r.customer_id == cid && r.video_id == vid)
              (fun r => { r with returned_on_date := some now })
              s.rentals).countP
            (fun x : Rental => x.video_id == video.video_id &&
              x.returned_on_date.isNone) : Nat) : Int) =
          video.total_inventory
      constructor
      · omega
      · omega
    · -- an untouched video with a different id
      obtain ⟨ha, hsum⟩ := hwf.2 v' hmem
      have hcount : openCount
          (updateFirst (fun r => r.customer_id == cid && r.video_id == vid)
            (fun r => { r with returned_on_date := some now })
            s.rentals) v'.video_id = openCount s.rentals v'.video_id := by
        apply countP_updateFirst_of_pred
        intro x hx
        simp only [Bool.and_eq_true, beq_iff_eq] at hx
        have hxne : (x.video_id == v'.video_id) = false := by
          rw [hx.2]
          rw [hvid] at hne
          exact beq_eq_false_iff_ne.mpr fun hh => hne hh.symm
        simp [hxne]
      rw [hcount]
      exact ⟨ha, hsum⟩

/-- One successful lifecycle transition (a failed request leaves the committed
state unchanged, so only successes matter for reachability). -/
inductive LifecycleStep : State → State → Prop where
  | checkout (s s' : State) (cid vid : Nat) (now : Int)
      (h : check_out s cid vid now = Except.ok s') : LifecycleStep s s'
  | checkin (s s' : State) (cid vid : Nat) (now : Int)
      (h : check_in s cid vid now = Except.ok s') : LifecycleStep s s'

theorem WF_lifecycleStep {s s' : State} (hwf : WF s) (h : LifecycleStep s s') :
    WF s' := by
  cases h with
  | checkout cid vid now h => exact WF_check_out hwf h
  | checkin cid vid now h => exact WF_check_in hwf h

theorem WF_reachable {s s' : State} (hwf : WF s)
    (h : Relation.ReflTransGen LifecycleStep s s') : WF s' := by
  induction h with
  | refl => exact hwf
  | tail _ hstep ih => exact WF_lifecycleStep ih hstep

theorem mem_le_foldr_max {l : List Nat} {a : Nat} (h : a ∈ l) :
    a ≤ l.foldr max 0 := by
  induction l with
  | nil => simp at h
  | cons x xs ih =>
    rcases List.mem_cons.mp h with rfl | h
    · exact Nat.le_max_left _ _
    · exact Nat.le_trans (ih h) (Nat.le_max_right _ _)

/-- Creating a video with nonnegative `total_inventory` preserves
well-formedness: `available_inventory` defaults to `total_inventory` and the
fresh autoincrement id has no rentals (the database sequence never reuses the
id of a deleted row, which the hypothesis `hor` records). -/
theorem WF_post_new_video {s : State} {title : String} {rd : Int}
    {genre : List String} {total : Int} (hwf : WF s) (htot : 0 ≤ total)
    (hor : openCount s.rentals (nextVideoId s) = 0) :
    WF (post_new_video s title rd genre total) := by
  constructor
  · simp only [post_new_video, List.map_append]
    rw [List.nodup_append]
    refine ⟨hwf.1, List.nodup_singleton _, ?_⟩
    intro a ha hb
    simp only [List.map_cons, List.map_nil, List.mem_singleton] at hb
    subst hb
    rcases List.mem_map.mp ha with ⟨v, hv, hvid⟩
    have : v.video_id ≤ nextVideoId s - 1 := by
      have := mem_le_foldr_max (List.mem_map_of_mem Video.video_id hv)
      simp only [nextVideoId] at *
      omega
    simp only [nextVideoId] at this hvid
    omega
  · intro v hv
    simp only [post_new_video, List.mem_append, List.mem_singleton] at hv
    rcases hv with hv | rfl
    · exact hwf.2 v hv
    · refine ⟨htot, ?_⟩
      show total + (openCount s.rentals (nextVideoId s) : Int) = total
      rw [hor]
      simp

deriving instance DecidableEq for Except

/-! ## Concrete stores used by the witnesses and counterexamples -/

/-- One registered customer, one video with two copies, no rentals. -/
def demoState : State :=
  { customers := [{ customer_id := 1, name := "Ada", postal_code := "98101",
                    phone := "555-1234", registered_at := 0,
                    videos_checked_out_count := 0 }]
    videos := [{ video_id := 1, title := "Alpha", release_date := 0,
                 genre := [], total_inventory := 2, available_inventory := 2 }]
    rentals := [] }

/-- `demoState` after `check_out(1, 1)` at time 0 (computed by hand so the
lifecycle theorems can be applied to explicit states). -/
def demoStateOut : State :=
  { customers := [{ customer_id := 1, name := "Ada", postal_code := "98101",
                    phone := "555-1234", registered_at := 0,
                    videos_checked_out_count := 1 }]
    videos := [{ video_id := 1, title := "Alpha", release_date := 0,
                 genre := [], total_inventory := 2, available_inventory := 1 }]
    rentals := [{ customer_id := 1, video_id := 1, due_date := 604800,
                  returned_on_date := none }] }

/-- `demoStateOut` after `check_in(1, 1)` at time 100. -/
def demoStateIn : State :=
  { customers := [{ customer_id := 1, name := "Ada", postal_code := "98101",
                    phone := "555-1234", registered_at := 0,
                    videos_checked_out_count := 0 }]
    videos := [{ video_id := 1, title := "Alpha", release_date := 0,
                 genre := [], total_inventory := 2, available_inventory := 2 }]
    rentals := [{ customer_id := 1, video_id := 1, due_date := 604800,
                  returned_on_date := some 100 }] }

/-- The full request sequence of the C1 counterexample, built with the model's
own operations: register a customer, create a video with `total_inventory = 1`
(`available_inventory` defaults to 1), check it out, lower `total_inventory`
to 0 through `PUT /videos/1`, and check it back in. -/
def c1Run : Except ApiErr State :=
  let s1 := post_new_customer { customers := [], videos := [], rentals := [] }
    "Ada" "98101" "555-1234" 0
  let s2 := post_new_video s1 "Alpha" 0 [] 1
  match check_out s2 1 1 0 with
  | Except.error e => Except.error e
  | Except.ok s3 =>
    match update_video s3 1 "Alpha" 0 [] 0 with
    | Except.error e => Except.error e
    | Except.ok s4 => check_in s4 1 1 100

/-- `true` iff the run succeeded and left some video with
`available_inventory < 0` or `available_inventory > total_inventory`. -/
def violatesInventoryBounds : Except ApiErr State → Bool
  | Except.ok s => !(s.videos.all fun v =>
      decide (0 ≤ v.available_inventory) &&
      decide (v.available_inventory ≤ v.total_inventory))
  | Except.error _ => false

/-- `true` iff the response is a handled 404. -/
def isNotFound : Except ApiErr α → Bool
  | Except.error (ApiErr.notFound _) => true
  | _ => false

instance (s : State) : Decidable (WF s) := by
  unfold WF
  infer_instance

instance (s : State) : Decidable (VideoInvariant s) := by
  unfold VideoInvariant
  infer_instance

/-! ## Claims -/

/-- C1, counterexample: the invariant `0 ≤ available_inventory ≤
total_inventory` does **not** survive a `total_inventory` edit between
lifecycle operations.  Create a customer and a video with one copy, check it
out, lower `total_inventory` to 0 via `PUT /videos/1` (which leaves
`available_inventory` untouched), and check the video back in: the final
state has `available_inventory = 1 > 0 = total_inventory`. -/
theorem c1_total_update_breaks_inventory_invariant :
    violatesInventoryBounds c1Run = true := by decide

/-- C1, amended: starting from any well-formed store (in particular one whose
videos were freshly created with `available_inventory` defaulting to
`total_inventory`), every sequence of successful `check_out` / `check_in`
operations — with no intervening `total_inventory` edits — keeps
`0 ≤ available_inventory ≤ total_inventory` for every video. -/
theorem c1_inventory_invariant_under_lifecycle {s s' : State} (hwf : WF s)
    (h : Relation.ReflTransGen LifecycleStep s s') : VideoInvariant s' :=
  (WF_reachable hwf h).videoInvariant

/-- C1 witness: the amended theorem applied to the concrete store `demoState`
along the two-step path check-out then check-in. -/
theorem c1_inventory_invariant_witness :
    WF demoState ∧ VideoInvariant demoStateIn :=
  ⟨by decide,
   c1_inventory_invariant_under_lifecycle (by decide)
     (Relation.ReflTransGen.tail
       (Relation.ReflTransGen.single
         (LifecycleStep.checkout demoState demoStateOut 1 1 0 (by decide)))
       (LifecycleStep.checkin demoStateOut demoStateIn 1 1 100 (by decide)))⟩

/-- C2: when the video exists with positive `available_inventory` and the
customer exists, `check_out` succeeds and atomically (single commit) appends
exactly one new open rental with `due_date = now + 7 days`, decrements the
video's `available_inventory` by one and increments the customer's
`videos_checked_out_count` by one. -/
theorem c2_check_out_effects {s : State} {cid vid : Nat} {now : Int}
    {v : Video} {c : Customer}
    (hv : findVideo s vid = some v) (hav : 0 < v.available_inventory)
    (hc : findCustomer s cid = some c) :
    ∃ s', check_out s cid vid now = Except.ok s' ∧
      s'.rentals = s.rentals ++ [{ customer_id := cid
                                   video_id := vid
                                   due_date := now + sevenDays
                                   returned_on_date := none }] ∧
      findVideo s' vid =
        some { v with available_inventory := v.available_inventory - 1 } ∧
      findCustomer s' cid =
        some { c with videos_checked_out_count :=
                        c.videos_checked_out_count + 1 } := by
  have h0 : (v.available_inventory == 0) = false := by
    simp only [beq_eq_false_iff_ne]
    omega
  have hrun : check_out s cid vid now = Except.ok
      { customers :=
          (updateFirst (fun c => c.customer_id == cid)
            (fun c => { c with videos_checked_out_count :=
                                 c.videos_checked_out_count + 1 })
            s.customers)
        videos :=
          (updateFirst (fun v => v.video_id == vid)
            (fun v => { v with available_inventory :=
                                 v.available_inventory - 1 })
            s.videos)
        rentals :=
          (s.rentals ++ [{ customer_id := cid
                           video_id := vid
                           due_date := now + sevenDays
                           returned_on_date := none }]) } := by
    simp only [check_out, hv, hc, h0, Bool.false_eq_true, if_false]
  exact ⟨_, hrun, rfl,
    find?_updateFirst_self (fun v : Video => v.video_id == vid)
      (fun v : Video =>
        { v with available_inventory := v.available_inventory - 1 })
      (fun x => rfl) hv,
    find?_updateFirst_self (fun c : Customer => c.customer_id == cid)
      (fun c : Customer =>
        { c with videos_checked_out_count :=
                   c.videos_checked_out_count + 1 })
      (fun x => rfl) hc⟩

/-- C2 witness: the theorem applied to the concrete store `demoState`. -/
theorem c2_check_out_effects_witness :
    (0 : Int) < 2 ∧
    (∃ s', check_out demoState 1 1 0 = Except.ok s' ∧
      s'.rentals = demoState.rentals ++ [{ customer_id := 1
                                           video_id := 1
                                           due_date := 0 + sevenDays
                                           returned_on_date := none }] ∧
      findVideo s' 1 =
        some { video_id := 1
               title := "Alpha"
               release_date := 0
               genre := []
               total_inventory := 2
               available_inventory := 2 - 1 } ∧
      findCustomer s' 1 =
        some { customer_id := 1
               name := "Ada"
               postal_code := "98101"
               phone := "555-1234"
               registered_at := 0
               videos_checked_out_count := 0 + 1 }) :=
  ⟨by decide,
   @c2_check_out_effects demoState 1 1 0
     { video_id := 1
       title := "Alpha"
       release_date := 0
       genre := []
       total_inventory := 2
       available_inventory := 2 }
     { customer_id := 1
       name := "Ada"
       postal_code := "98101"
       phone := "555-1234"
       registered_at := 0
       videos_checked_out_count := 0 } rfl (by decide) rfl⟩

/-- C3: the claim says a check-out whose video id does not exist fails with a
not-found error, and the line `make_response(detail_error("Video does not
exist"), 404)` shows that is what the code means to do — but the `return` is
missing (`app/routes.py:406`), so the handler falls through and raises
`AttributeError` on `None.available_inventory` (an HTTP 500), not a 404.
Evaluated here at the concrete failing input: customer 1 exists, video 42
does not. -/
theorem c3_missing_video_crashes_not_404 :
    check_out demoState 1 42 0 =
      Except.error (ApiErr.exn PyExn.attributeError) ∧
    isNotFound (check_out demoState 1 42 0) = false := by decide

/-- C4: with the customer and the video both present, a check-in with no
rental row for the pair answers 400 "No matching record", and one whose
rental row is already closed answers 400 "Rental has already been checked
in"; the handler returns before any mutation in both cases, so the committed
state is unchanged. -/
theorem c4_check_in_error_paths {s : State} {cid vid : Nat} {now : Int}
    {c : Customer} {v : Video}
    (hc : findCustomer s cid = some c) (hv : findVideo s vid = some v) :
    (findRental s.rentals cid vid = none →
      check_in s cid vid now =
        Except.error (ApiErr.badRequest "No matching record")) ∧
    (∀ r, findRental s.rentals cid vid = some r →
      r.returned_on_date.isSome = true →
      check_in s cid vid now =
        Except.error (ApiErr.badRequest "Rental has already been checked in")) := by
  constructor
  · intro hr
    simp only [check_in, hc, hv, hr]
  · intro r hr hro
    simp only [check_in, hc, hv, hr, hro, if_true]

/-- C4 witness: the theorem applied at two concrete stores — `demoState`
(no rental row at all) and `demoStateIn` (a closed rental row). -/
theorem c4_check_in_error_paths_witness :
    check_in demoState 1 1 0 =
      Except.error (ApiErr.badRequest "No matching record") ∧
    check_in demoStateIn 1 1 200 =
      Except.error (ApiErr.badRequest "Rental has already been checked in") :=
  ⟨(@c4_check_in_error_paths demoState 1 1 0
      { customer_id := 1
        name := "Ada"
        postal_code := "98101"
        phone := "555-1234"
        registered_at := 0
        videos_checked_out_count := 0 }
      { video_id := 1
        title := "Alpha"
        release_date := 0
        genre := []
        total_inventory := 2
        available_inventory := 2 } rfl rfl).1 rfl,
   (@c4_check_in_error_paths demoStateIn 1 1 200
      { customer_id := 1
        name := "Ada"
        postal_code := "98101"
        phone := "555-1234"
        registered_at := 0
        videos_checked_out_count := 0 }
      { video_id := 1
        title := "Alpha"
        release_date := 0
        genre := []
        total_inventory := 2
        available_inventory := 2 } rfl rfl).2
     { customer_id := 1
       video_id := 1
       due_date := 604800
       returned_on_date := some 100 } rfl rfl⟩

/-- C5: a check-in of an open rental (customer and video present) succeeds
and atomically closes the rental row in place — the row still exists, with
`returned_on_date = now`, and the table keeps its length — while
incrementing the video's `available_inventory` and decrementing the
customer's `videos_checked_out_count`. -/
theorem c5_check_in_success_effects {s : State} {cid vid : Nat} {now : Int}
    {c : Customer} {v : Video} {r : Rental}
    (hc : findCustomer s cid = some c) (hv : findVideo s vid = some v)
    (hr : findRental s.rentals cid vid = some r)
    (hro : r.returned_on_date = none) :
    ∃ s', check_in s cid vid now = Except.ok s' ∧
      { r with returned_on_date := some now } ∈ s'.rentals ∧
      s'.rentals.length = s.rentals.length ∧
      findVideo s' vid =
        some { v with available_inventory := v.available_inventory + 1 } ∧
      findCustomer s' cid =
        some { c with videos_checked_out_count :=
                        c.videos_checked_out_count - 1 } := by
  have hrun : check_in s cid vid now = Except.ok
      { customers :=
          (updateFirst (fun c => c.customer_id == cid)
            (fun c => { c with videos_checked_out_count :=
                                 c.videos_checked_out_count - 1 })
            s.customers)
        videos :=
          (updateFirst (fun v => v.video_id == vid)
            (fun v => { v with available_inventory :=
                                 v.available_inventory + 1 })
            s.videos)
        rentals :=
          (updateFirst
            (fun r => r.customer_id == cid && r.video_id == vid)
            (fun r => { r with returned_on_date := some now })
            s.rentals) } := by
    simp only [check_in, hc, hv, hr, hro, Option.isSome_none,
      Bool.false_eq_true, if_false]
  exact ⟨_, hrun, mem_updateFirst_of_find? _ _ hr, updateFirst_length _ _ _,
    find?_updateFirst_self (fun v : Video => v.video_id == vid)
      (fun v : Video =>
        { v with available_inventory := v.available_inventory + 1 })
      (fun x => rfl) hv,
    find?_updateFirst_self (fun c : Customer => c.customer_id == cid)
      (fun c : Customer =>
        { c with videos_checked_out_count :=
                   c.videos_checked_out_count - 1 })
      (fun x => rfl) hc⟩

/-- C5 witness: the theorem applied to the concrete store `demoStateOut`
(one open rental). -/
theorem c5_check_in_success_effects_witness :
    ∃ s', check_in demoStateOut 1 1 100 = Except.ok s' ∧
      ({ customer_id := 1
         video_id := 1
         due_date := 604800
         returned_on_date := some 100 } : Rental) ∈ s'.rentals ∧
      s'.rentals.length = demoStateOut.rentals.length ∧
      findVideo s' 1 =
        some { video_id := 1
               title := "Alpha"
               release_date := 0
               genre := []
               total_inventory := 2
               available_inventory := 1 + 1 } ∧
      findCustomer s' 1 =
        some { customer_id := 1
               name := "Ada"
               postal_code := "98101"
               phone := "555-1234"
               registered_at := 0
               videos_checked_out_count := 1 - 1 } :=
  @c5_check_in_success_effects demoStateOut 1 1 100
    { customer_id := 1
      name := "Ada"
      postal_code := "98101"
      phone := "555-1234"
      registered_at := 0
      videos_checked_out_count := 1 }
    { video_id := 1
      title := "Alpha"
      release_date := 0
      genre := []
      total_inventory := 2
      available_inventory := 1 }
    { customer_id := 1
      video_id := 1
      due_date := 604800
      returned_on_date := none } rfl rfl rfl rfl

/-- C6: when a check-out and then a check-in of the same (customer, video)
pair both succeed, the video's `available_inventory` and the customer's
`videos_checked_out_count` come back to exactly their pre-checkout values. -/
theorem c6_round_trip {s s1 s2 : State} {cid vid : Nat} {now1 now2 : Int}
    {v : Video} {c : Customer}
    (hv : findVideo s vid = some v) (hc : findCustomer s cid = some c)
    (h1 : check_out s cid vid now1 = Except.ok s1)
    (h2 : check_in s1 cid vid now2 = Except.ok s2) :
    (findVideo s2 vid).map Video.available_inventory =
      some v.available_inventory ∧
    (findCustomer s2 cid).map Customer.videos_checked_out_count =
      some c.videos_checked_out_count := by
  obtain ⟨v0, c0, hv0, h00, hc0, rfl⟩ := check_out_ok_elim h1
  rw [hv] at hv0
  rw [hc] at hc0
  simp only [Option.some.injEq] at hv0 hc0
  subst hv0
  subst hc0
  have hv1 := find?_updateFirst_self (fun x : Video => x.video_id == vid)
    (fun x : Video =>
      { x with available_inventory := x.available_inventory - 1 })
    (fun x => rfl) hv
  have hc1 := find?_updateFirst_self (fun x : Customer => x.customer_id == cid)
    (fun x : Customer =>
      { x with videos_checked_out_count := x.videos_checked_out_count + 1 })
    (fun x => rfl) hc
  obtain ⟨c1, v1, r1, hc1', hv1', hr1, hro1, rfl⟩ := check_in_ok_elim h2
  simp only [findVideo, findCustomer] at hv1' hc1'
  rw [hv1] at hv1'
  rw [hc1] at hc1'
  simp only [Option.some.injEq] at hv1' hc1'
  subst hv1'
  subst hc1'
  have hv2 := find?_updateFirst_self (fun x : Video => x.video_id == vid)
    (fun x : Video =>
      { x with available_inventory := x.available_inventory + 1 })
    (fun x => rfl) hv1
  have hc2 := find?_updateFirst_self (fun x : Customer => x.customer_id == cid)
    (fun x : Customer =>
      { x with videos_checked_out_count := x.videos_checked_out_count - 1 })
    (fun x => rfl) hc1
  constructor
  · show (List.find? (fun x : Video => x.video_id == vid) _).map
      Video.available_inventory = some v.available_inventory
    rw [hv2]
    have harith : v.available_inventory - 1 + 1 = v.available_inventory := by
      omega
    simp [harith]
  · show (List.find? (fun x : Customer => x.customer_id == cid) _).map
      Customer.videos_checked_out_count = some c.videos_checked_out_count
    rw [hc2]
    have harith : c.videos_checked_out_count + 1 - 1 =
        c.videos_checked_out_count := by
      omega
    simp [harith]

/-- C6 witness: the round trip on the concrete store `demoState`, through
`demoStateOut` and `demoStateIn`. -/
theorem c6_round_trip_witness :
    (findVideo demoStateIn 1).map Video.available_inventory = some 2 ∧
    (findCustomer demoStateIn 1).map Customer.videos_checked_out_count =
      some 0 :=
  @c6_round_trip demoState demoStateOut demoStateIn 1 1 0 100
    { video_id := 1
      title := "Alpha"
      release_date := 0
      genre := []
      total_inventory := 2
      available_inventory := 2 }
    { customer_id := 1
      name := "Ada"
      postal_code := "98101"
      phone := "555-1234"
      registered_at := 0
      videos_checked_out_count := 0 }
    rfl rfl (by decide) (by decide)

/-- `true` iff the response is a handled 400 validation error
(`detail_error` body). -/
def isValidationError : Except ApiErr α → Bool
  | Except.error (ApiErr.badRequest _) => true
  | _ => false

/-- `true` iff the request succeeded. -/
def isOk : Except ApiErr α → Bool
  | Except.ok _ => true
  | _ => false

/-- C7, counterexample: sorting `GET /customers` by the unknown field
`"bogus"` does not produce a handled validation error — the free-text column
name reaches the database and the resulting error propagates uncaught (HTTP
500), because the routes have no sort-field allowlist and no handler. -/
theorem c7_unknown_sort_is_not_validation_error :
    get_all_customers demoState (some "bogus") none none =
      Except.error (ApiErr.exn PyExn.dbError) ∧
    isValidationError
      (get_all_customers demoState (some "bogus") none none) = false := by
  decide

/-- C7, amended: a truthy sort parameter naming an unknown column always
makes the query fail — it is never silently ignored and never succeeds with
another ordering — but the failure is an unhandled database error (HTTP
500), not a handled validation error.  Stated for both shared query helpers
(used by every list route) and for the `GET /customers` route. -/
theorem c7_unknown_sort_fails_unhandled {α : Type} (E : EntityCols α)
    (rows : List α) (f : String) (pg n : Option String) (s : State)
    (hne : f ≠ "") (hfE : E.cols.contains f = false)
    (hfc : customerCols.cols.contains f = false) :
    query_with_parameters E rows (some f) pg n =
      Except.error (ApiErr.exn PyExn.dbError) ∧
    get_rentals_within_parameters E rows (some f) pg n =
      Except.error (ApiErr.exn PyExn.dbError) ∧
    get_all_customers s (some f) n pg =
      Except.error (ApiErr.exn PyExn.dbError) := by
  have ht : pyTruthyStr (some f) = true := by
    simp [pyTruthyStr, hne]
  have hob : applyOrderBy E rows (some f) =
      Except.error (ApiErr.exn PyExn.dbError) := by
    simp only [applyOrderBy, ht, if_true, Option.getD_some, hfE,
      Bool.false_eq_true, if_false]
  have hobc : applyOrderBy customerCols s.customers (some f) =
      Except.error (ApiErr.exn PyExn.dbError) := by
    simp only [applyOrderBy, ht, if_true, Option.getD_some, hfc,
      Bool.false_eq_true, if_false]
  refine ⟨?_, ?_, ?_⟩
  · simp only [query_with_parameters, hob]
  · simp only [get_rentals_within_parameters, hob]
  · simp only [get_all_customers, ht, if_true, query_with_parameters, hobc]

/-- C7 witness: the amended theorem at the concrete field `"bogus"` over the
customer table. -/
theorem c7_unknown_sort_fails_unhandled_witness :
    query_with_parameters customerCols demoState.customers (some "bogus")
      none none = Except.error (ApiErr.exn PyExn.dbError) ∧
    get_rentals_within_parameters customerCols demoState.customers
      (some "bogus") none none = Except.error (ApiErr.exn PyExn.dbError) ∧
    get_all_customers demoState (some "bogus") none none =
      Except.error (ApiErr.exn PyExn.dbError) :=
  c7_unknown_sort_fails_unhandled customerCols demoState.customers "bogus"
    none none demoState (by decide) (by decide) (by decide)

/-- C8, counterexample: supplying page `p = "1"` without a page size `n` on
`GET /customers` is not a no-op — the offset branch still runs and
`int(results_per_page)` is `int(None)`, raising `TypeError` (HTTP 500), so
the request does not return the unpaginated collection. -/
theorem c8_page_without_n_is_not_a_noop :
    get_all_customers demoState none none (some "1") =
      Except.error (ApiErr.exn PyExn.typeError) ∧
    isOk (get_all_customers demoState none none (some "1")) = false := by
  decide

/-- C8, amended: when the page-size `n` and the page `p` are both absent, no
pagination is applied and `GET /customers` returns the whole collection
sorted by the default `customer_id`; but a numeric `p` supplied without `n`
raises `TypeError` (`int(None)`) instead of being ignored. -/
theorem c8_pagination_requires_n {s : State} {pstr : String} {k : Int}
    (hp : pyParseInt pstr = some k) :
    get_all_customers s none none none =
      Except.ok ((sortByLe (fun a b =>
        Val.leB (customerCols.getVal a "customer_id")
          (customerCols.getVal b "customer_id")) s.customers).map
        Customer.get_customer_info) ∧
    get_all_customers s none none (some pstr) =
      Except.error (ApiErr.exn PyExn.typeError) := by
  have hne : (pstr == "") = false := by
    cases hps : pstr == ""
    · rfl
    · exfalso
      have hempty : pstr = "" := eq_of_beq hps
      subst hempty
      exact Option.noConfusion (show (none : Option Int) = some k from hp)
  constructor
  · rfl
  · have ht : pyTruthyStr (some pstr) = true := by
      simp [pyTruthyStr, hne]
    have hoff : pyOffset (some pstr) none =
        Except.error (ApiErr.exn PyExn.typeError) := by
      simp only [pyOffset, ht, if_true, Option.getD_some, hp]
    have hpag : applyPagination
        (sortByLe (fun a b =>
          Val.leB (customerCols.getVal a "customer_id")
            (customerCols.getVal b "customer_id")) s.customers)
        (some pstr) none = Except.error (ApiErr.exn PyExn.typeError) := by
      simp only [applyPagination, pyLimit, pyTruthyStr, Bool.false_eq_true,
        if_false, hoff]
    have hsorted : applyOrderBy customerCols s.customers
        (some "customer_id") =
        Except.ok (sortByLe (fun a b =>
          Val.leB (customerCols.getVal a "customer_id")
            (customerCols.getVal b "customer_id")) s.customers) := rfl
    have hq : query_with_parameters customerCols s.customers
        (some "customer_id") (some pstr) none =
        Except.error (ApiErr.exn PyExn.typeError) := by
      simp only [query_with_parameters, hsorted, hpag]
    show (match query_with_parameters customerCols s.customers
        (some "customer_id") (some pstr) none with
      | Except.error e => Except.error e
      | Except.ok customers =>
        Except.ok (customers.map Customer.get_customer_info)) =
      Except.error (ApiErr.exn PyExn.typeError)
    rw [hq]

/-- C8 witness: the amended theorem at the concrete store `demoState` with
`p = "1"`. -/
theorem c8_pagination_requires_n_witness :
    pyParseInt "1" = some 1 ∧
    (get_all_customers demoState none none none =
      Except.ok ((sortByLe (fun a b =>
        Val.leB (customerCols.getVal a "customer_id")
          (customerCols.getVal b "customer_id")) demoState.customers).map
        Customer.get_customer_info) ∧
    get_all_customers demoState none none (some "1") =
      Except.error (ApiErr.exn PyExn.typeError)) :=
  ⟨by decide, @c8_pagination_requires_n demoState "1" 1 (by decide)⟩

/-- C9: the customer read endpoint serializes exactly the fields
`{id, name, registered_at, postal_code, phone, videos_checked_out_count}`,
and `videos_checked_out_count` is the maintained per-customer counter: after
a successful check-out the same endpoint reports the old count plus one (and
check-in symmetrically decrements it), so the field is not a constant. -/
theorem c9_serialized_count_is_maintained {s s' : State} {cid vid : Nat}
    {now : Int} {c : Customer}
    (hc : findCustomer s cid = some c)
    (h : check_out s cid vid now = Except.ok s') :
    get_single_customer s cid = Except.ok
      { id := c.customer_id
        name := c.name
        registered_at := c.registered_at
        postal_code := c.postal_code
        phone := c.phone
        videos_checked_out_count := c.videos_checked_out_count } ∧
    get_single_customer s' cid = Except.ok
      { id := c.customer_id
        name := c.name
        registered_at := c.registered_at
        postal_code := c.postal_code
        phone := c.phone
        videos_checked_out_count := c.videos_checked_out_count + 1 } := by
  obtain ⟨v0, c0, hv0, h00, hc0, rfl⟩ := check_out_ok_elim h
  rw [hc] at hc0
  simp only [Option.some.injEq] at hc0
  subst hc0
  have hc1 := find?_updateFirst_self (fun x : Customer => x.customer_id == cid)
    (fun x : Customer =>
      { x with videos_checked_out_count := x.videos_checked_out_count + 1 })
    (fun x => rfl) hc
  constructor
  · simp only [get_single_customer, hc]
    rfl
  · simp only [get_single_customer, findCustomer]
    rw [hc1]
    rfl

/-- C9 witness: the theorem at the concrete store `demoState` (count 0 before
check-out, count 1 after). -/
theorem c9_serialized_count_is_maintained_witness :
    get_single_customer demoState 1 = Except.ok
      { id := 1
        name := "Ada"
        registered_at := 0
        postal_code := "98101"
        phone := "555-1234"
        videos_checked_out_count := 0 } ∧
    get_single_customer demoStateOut 1 = Except.ok
      { id := 1
        name := "Ada"
        registered_at := 0
        postal_code := "98101"
        phone := "555-1234"
        videos_checked_out_count := 0 + 1 } :=
  @c9_serialized_count_is_maintained demoState demoStateOut 1 1 0
    { customer_id := 1
      name := "Ada"
      postal_code := "98101"
      phone := "555-1234"
      registered_at := 0
      videos_checked_out_count := 0 } rfl (by decide)

/-- C10: the two per-entity rental listings filter differently.  After a
successful check-in, the now-closed rental row still appears in the join
behind `GET /customers/id/rentals` (which has no `returned_on_date` filter)
but not in the join behind `GET /videos/id/rentals` (which keeps only rows
with `returned_on_date IS NULL`); every row of the video-centric listing is
open, and with no query parameters each route returns exactly its join,
serialized. -/
theorem c10_rental_listings_filter_differently {s s' : State} {cid vid : Nat}
    {now : Int} (h : check_in s cid vid now = Except.ok s') :
    (∃ r, r ∈ customerRentalRows s' cid ∧ r.video_id = vid ∧
      r.returned_on_date = some now ∧ r ∉ videoRentalRows s' vid) ∧
    (∀ q ∈ videoRentalRows s' vid, q.returned_on_date = none) ∧
    get_rentals_by_customer s' cid none none none =
      Except.ok ((customerRentalRows s' cid).map (serializeCustomerRental s')) ∧
    get_rentals_by_video s' vid none none none =
      Except.ok ((videoRentalRows s' vid).map (serializeVideoRental s')) := by
  obtain ⟨c, v, r0, hc, hv, hr, hro, rfl⟩ := check_in_ok_elim h
  have hrp := List.find?_some hr
  simp only [Bool.and_eq_true, beq_iff_eq] at hrp
  have hcf := find?_updateFirst_self (fun x : Customer => x.customer_id == cid)
    (fun x : Customer =>
      { x with videos_checked_out_count := x.videos_checked_out_count - 1 })
    (fun x => rfl) hc
  have hvf := find?_updateFirst_self (fun x : Video => x.video_id == vid)
    (fun x : Video =>
      { x with available_inventory := x.available_inventory + 1 })
    (fun x => rfl) hv
  have hmem := mem_updateFirst_of_find?
    (fun r : Rental => r.customer_id == cid && r.video_id == vid)
    (fun r : Rental => { r with returned_on_date := some now }) hr
  refine ⟨⟨{ r0 with returned_on_date := some now }, ?_, hrp.2, rfl, ?_⟩,
    ?_, ?_, ?_⟩
  · -- the closed row is in the customer-centric join
    apply List.mem_filter.mpr
    refine ⟨hmem, ?_⟩
    simp [hrp.1, hrp.2, hcf, hvf]
  · -- and not in the video-centric join
    intro hbad
    have := (List.mem_filter.mp hbad).2
    simp at this
  · -- every row of the video-centric join is open
    intro q hq
    have := (List.mem_filter.mp hq).2
    simp only [Bool.and_eq_true, Option.isNone_iff_eq_none] at this
    exact this.2
  · -- the customer route returns its join, serialized
    simp only [get_rentals_by_customer, findCustomer]
    rw [hcf]
    rfl
  · -- the video route returns its join, serialized
    simp only [get_rentals_by_video, findVideo]
    rw [hvf]
    rfl

/-- C10 witness: the theorem applied to the concrete check-in taking
`demoStateOut` to `demoStateIn`. -/
theorem c10_rental_listings_filter_differently_witness :
    (∃ r, r ∈ customerRentalRows demoStateIn 1 ∧ r.video_id = 1 ∧
      r.returned_on_date = some 100 ∧ r ∉ videoRentalRows demoStateIn 1) ∧
    (∀ q ∈ videoRentalRows demoStateIn 1, q.returned_on_date = none) ∧
    get_rentals_by_customer demoStateIn 1 none none none =
      Except.ok ((customerRentalRows demoStateIn 1).map
        (serializeCustomerRental demoStateIn)) ∧
    get_rentals_by_video demoStateIn 1 none none none =
      Except.ok ((videoRentalRows demoStateIn 1).map
        (serializeVideoRental demoStateIn)) :=
  @c10_rental_listings_filter_differently demoStateOut demoStateIn 1 1 100
    (by decide)
